import Mathlib

/-!
Verification of the krakend-trace plugin core (capture / stream / async
dispatch pipeline) against its natural-language specification.

The Go source (a KrakenD HTTP-client plugin) is shallowly embedded here:
byte streams become `List Nat`, the `sync.Pool` of capture scratch slices
becomes an explicit `SlicePool` state (a heap of buffers plus a free list,
so that slice aliasing is observable), fallible or panicking code returns
`Option`, and the detached tracking goroutine becomes a pure function from
its one-shot handoff value to the list of events it performs.
-/

namespace KrakendTrace

/-- A byte stream, modelled as the sequence of byte values it yields. -/
abbrev ByteStream := List Nat

/-- Bytes of a string (character codepoints; this agrees with the wire
bytes for the ASCII marker/URL text the plugin emits). -/
def strBytes (s : String) : ByteStream := s.data.map Char.toNat

/-- Source constant `defTimeoutMS = 2_000`. -/
def defTimeoutMS : Int := 2000

/-- Source constant `defMaxCaptureKB = 256`. -/
def defMaxCaptureKB : Int := 256

/-- `time.Millisecond` in nanoseconds (Go `time.Duration` counts ns). -/
def msNS : Int := 1000000

/-- Source constant `tag`. -/
def tag : String := "[krakend-trace-plugin]"

/-- The plugin registerer name, `ClientRegisterer = registerer("krakend-trace-plugin")`. -/
def pluginName : String := "krakend-trace-plugin"

/-- A URL value as the handler sees it: `full` is `url.URL.String()` and
`rawQuery` is `url.URL.RawQuery`. -/
structure URL where
  full : String
  rawQuery : String
deriving DecidableEq

/-- The parsed configuration `cfg` of the source: target url, delivery
timeout (in nanoseconds, as a Go `time.Duration`), capture limit in bytes
(Go `int`), and the verbose flag. -/
structure Cfg where
  url : URL
  timeout : Int
  maxCapture : Int
  verbose : Bool
deriving DecidableEq

/-- State of `slicePool` (`sync.Pool` of `[]byte` scratch buffers), made
explicit so aliasing between a returned slice and a pooled buffer is
observable: `heap` holds the contents of every allocated backing buffer
by id, and `free` lists the ids currently inside the pool. -/
structure SlicePool where
  heap : List ByteStream
  free : List Nat
deriving DecidableEq

/-- `slicePool.Get()`: takes a pooled buffer if one is free, otherwise the
pool's `New` allocates a fresh empty buffer (a fresh id extends the heap). -/
def SlicePool.get (p : SlicePool) : Nat × SlicePool :=
  match p.free with
  | [] => (p.heap.length, ⟨p.heap ++ [[]], []⟩)
  | i :: rest => (i, ⟨p.heap, rest⟩)

/-- `slicePool.Put(buf)`: returns a backing buffer to the pool. -/
def SlicePool.put (p : SlicePool) (i : Nat) : SlicePool :=
  ⟨p.heap, i :: p.free⟩

/-- Overwrite the contents of the backing buffer `i` (the net effect of the
`[:0]` truncation followed by the `sliceWriter` appends). -/
def SlicePool.write (p : SlicePool) (i : Nat) (b : ByteStream) : SlicePool :=
  ⟨p.heap.set i b, p.free⟩

/-- A Go slice value returned by `streamAndCapture`: a reference into the
backing buffer `buf` of the pool, with length `len`. -/
structure CaptureSlice where
  buf : Nat
  len : Nat
deriving DecidableEq

/-- Dereference a capture slice in a pool state: the bytes currently in
its backing buffer, up to its length. -/
def readSlice (p : SlicePool) (s : CaptureSlice) : ByteStream :=
  (p.heap.getD s.buf []).take s.len

/-- Embedding of the source helper

```
func captureBody(rc *io.ReadCloser, max int) []byte {
    if rc == nil || *rc == nil { return nil }
    b, _ := io.ReadAll(*rc); (*rc).Close(); *rc = io.NopCloser(bytes.NewReader(b))
    if len(b) > max { return b[:max] }
    return b
}
```

The stream parameter collapses `rc == nil || *rc == nil` into `none`.
The result is the pair (captured bytes, replacement stream); an overall
`none` is a Go panic (`b[:max]` with negative `max` is out of range). -/
def captureBody (rc : Option ByteStream) (max : Int) :
    Option (ByteStream × Option ByteStream) :=
  match rc with
  | none => some ([], none)
  | some b =>
      if (b.length : Int) > max then
        if max < 0 then none
        else some (b.take max.toNat, some b)
      else some (b, some b)

/-- Embedding of the source helper

```
func streamAndCapture(dst io.Writer, src io.Reader, max int) []byte {
    if max <= 0 { io.Copy(dst, src); return nil }
    buf := slicePool.Get().([]byte)[:0]
    lr := &io.LimitedReader{R: src, N: int64(max)}
    tee := io.TeeReader(lr, &sliceWriter{&buf})
    io.Copy(dst, tee)
    defer slicePool.Put(buf[:0])
    return buf
}
```

`io.Copy(dst, tee)` drains the tee until EOF; the `LimitedReader` yields
EOF after `max` bytes, so exactly `src.take max.toNat` bytes flow: they are
appended to `dst` and mirrored (by the `sliceWriter`) into the pooled
buffer. `Put` runs before the caller receives the slice, so the returned
`CaptureSlice` still points at the pooled backing buffer. -/
def streamAndCapture (dst src : ByteStream) (max : Int) (p : SlicePool) :
    ByteStream × Option CaptureSlice × SlicePool :=
  if max ≤ 0 then (dst ++ src, none, p)
  else
    let g := p.get
    let copied := src.take max.toNat
    let p2 := (g.2.write g.1 copied).put g.1
    (dst ++ copied, some ⟨g.1, copied.length⟩, p2)

/-- Characters after the first `?` of a character list (empty when there
is no `?`). -/
def afterQuery : List Char → List Char
  | [] => []
  | '?' :: rest => rest
  | _ :: rest => afterQuery rest

/-- The raw-query part of a URL string: everything after the first `?`. -/
def queryOf (s : String) : String := ⟨afterQuery s.data⟩

/-- Split a character list at the first `://` separator into the scheme
part and the remainder. -/
def schemeSplit : List Char → Option (List Char × List Char)
  | [] => none
  | ':' :: '/' :: '/' :: rest => some ([], rest)
  | c :: rest =>
      match schemeSplit rest with
      | some (sch, r) => some (c :: sch, r)
      | none => none

/-- Model of the external `net/url.ParseRequestURI` boundary (Go standard
library, outside this repository), per its documented contract: it accepts
absolute URIs (`scheme://...` with a nonempty scheme) and rooted paths,
and rejects the empty string, strings containing spaces, and scheme-less
relative strings. -/
def parseRequestURI (s : String) : Option URL :=
  match s.data with
  | [] => none
  | l =>
      if l.contains ' ' then none
      else
        match schemeSplit l with
        | some (sch, _) => if sch.isEmpty then none else some ⟨s, queryOf s⟩
        | none =>
            match l with
            | '/' :: _ => some ⟨s, queryOf s⟩
            | _ => none

/-- Truncation of a rational toward zero, as Go's float64-to-int
conversion (`int(v)`, `time.Duration(v)`). -/
def ratTrunc (q : ℚ) : Int := Int.tdiv q.num (q.den : Int)

/-- A value inside the plugin's configuration block (Go
`map[string]interface` values: JSON strings, numbers decoded as float64
— modelled exactly by rationals — booleans, or anything else). -/
inductive CVal where
  | vstr (s : String)
  | vnum (v : ℚ)
  | vbool (b : Bool)
  | vother
deriving DecidableEq

/-- A value of the outer `extra` configuration map: either a nested
configuration block or something else. -/
inductive ExtraVal where
  | secCfg (m : List (String × CVal))
  | other
deriving DecidableEq

/-- Outcome of `registerClients`: a Go runtime panic (failed type
assertion, or a method call on a nil logger), an error return
(`nil, err`), or a successfully built handler configuration. -/
inductive RegResult where
  | panicked
  | err (msg : String)
  | ok (c : Cfg)
deriving DecidableEq

/-- The message of `fmt.Errorf("%s invalid tracking_url: %w", tag, err)`
(the wrapped parse-error text is not modelled). -/
def invalidURLMsg : String := tag ++ " invalid tracking_url"

/-- Embedding of the configuration part of `registerClients`, given the
(possibly nil) injected global `logger`:

```
sec := extra[string(r)].(map[string]interface{})                 -- see registerClients below
u, err := url.ParseRequestURI(sec["tracking_url"].(string))      -- assertion panics if missing/non-string
if err != nil { return nil, fmt.Errorf(...) }
c := &cfg{url: u, timeout: defTimeoutMS * time.Millisecond,
          maxCapture: defMaxCaptureKB * 1024, verbose: false}
if v, ok := sec["timeout_ms"].(float64); ok && v > 0 { c.timeout = time.Duration(v) * time.Millisecond }
if v, ok := sec["max_capture_kb"].(float64); ok && v > 0 { c.maxCapture = int(v * 1024) }
if v, ok := sec["verbose"].(bool); ok { c.verbose = v }
logger.Info(...)                                                 -- unconditional: panics when logger is nil
```
-/
def registerClientsSec (lg : Option Unit) (sec : List (String × CVal)) : RegResult :=
  match List.lookup "tracking_url" sec with
  | some (CVal.vstr s) =>
      match parseRequestURI s with
      | none => RegResult.err invalidURLMsg
      | some u =>
          let t : Int :=
            match List.lookup "timeout_ms" sec with
            | some (CVal.vnum v) => if 0 < v then ratTrunc v * msNS else defTimeoutMS * msNS
            | _ => defTimeoutMS * msNS
          let m : Int :=
            match List.lookup "max_capture_kb" sec with
            | some (CVal.vnum v) => if 0 < v then ratTrunc (v * 1024) else defMaxCaptureKB * 1024
            | _ => defMaxCaptureKB * 1024
          let vb : Bool :=
            match List.lookup "verbose" sec with
            | some (CVal.vbool b) => b
            | _ => false
          match lg with
          | none => RegResult.panicked
          | some _ => RegResult.ok ⟨u, t, m, vb⟩
  | _ => RegResult.panicked

/-- Embedding of `registerClients`, including the outer
`extra[string(r)].(map[string]interface...)` type assertion, which panics
when the plugin's configuration block is missing or not a map. -/
def registerClients (lg : Option Unit) (extra : List (String × ExtraVal)) : RegResult :=
  match List.lookup pluginName extra with
  | some (ExtraVal.secCfg sec) => registerClientsSec lg sec
  | _ => RegResult.panicked

/-- Embedding of the payload construction in `trackCoroutine`
(`part_001`'s `trackingCoroutine` writes the same bytes in merged chunks):

```
buf.WriteString("{$responseBody}"); buf.Write(respBody)
buf.WriteString("{/responseBody},{$requestBody}"); buf.Write(reqBody)
buf.WriteString("{/requestBody},{$requestQuery}"); buf.WriteString(urlObj.RawQuery)
buf.WriteString("{/requestQuery},{$requestUrl}"); buf.WriteString(urlObj.String())
buf.WriteString("{/requestUrl}")
```

`payload := buf.String()` copies the bytes out of the pooled
`bytes.Buffer` before `bufPool.Put(buf)`, so the payload is a plain value. -/
def buildPayload (respBody reqBody : ByteStream) (rawQuery fullURL : String) : ByteStream :=
  strBytes "\x7b$responseBody\x7d" ++ respBody ++
  strBytes "\x7b/responseBody\x7d,\x7b$requestBody\x7d" ++ reqBody ++
  strBytes "\x7b/requestBody\x7d,\x7b$requestQuery\x7d" ++ strBytes rawQuery ++
  strBytes "\x7b/requestQuery\x7d,\x7b$requestUrl\x7d" ++ strBytes fullURL ++
  strBytes "\x7b/requestUrl\x7d"

/-- The tracking POST issued by the delivery coroutine: target URL,
declared content type, and payload bytes. -/
structure TrackingPost where
  target : String
  contentType : String
  payload : ByteStream
deriving DecidableEq

/-- An observable step of the delivery coroutine: receiving the handoff
value from `respCh`, encoding the payload, or issuing the POST. -/
inductive TrackEvent where
  | recv (b : ByteStream)
  | encode
  | post (tp : TrackingPost)
deriving DecidableEq

/-- Embedding of the detached `trackCoroutine` as the sequence of steps it
performs, given what (if anything) is ever sent on its one-shot handoff
channel. The source is straight-line: `respBody := <-respCh` (a blocking
receive; if the channel is never written the goroutine stays suspended and
performs nothing), then the payload is built, then the POST is issued. -/
def trackCoroutine (c : Cfg) (urlObj : URL) (reqBody : ByteStream)
    (handoff : Option ByteStream) : List TrackEvent :=
  match handoff with
  | none => []
  | some respBody =>
      [TrackEvent.recv respBody, TrackEvent.encode,
       TrackEvent.post ⟨c.url.full, "text/plain",
         buildPayload respBody reqBody urlObj.rawQuery urlObj.full⟩]

/-- An inbound request as the handler sees it: its URL and its
(read-once, possibly absent) body stream. -/
structure Request where
  url : URL
  body : Option ByteStream
deriving DecidableEq

/-- The abstracted upstream HTTP boundary: `http.DefaultClient.Do(req)`
either fails with an error or yields a status, headers and a body stream. -/
inductive UpstreamResult where
  | failure (errText : String)
  | success (status : Nat) (headers : List (String × String)) (body : ByteStream)
deriving DecidableEq

/-- Everything observable from one run of the proxy handler: the status
and headers written to the caller, the body bytes written to the caller,
the value sent on the one-shot handoff channel (`none` when the channel is
never signalled), the events of this request's delivery coroutine, and the
final slice-pool state. -/
structure HandlerOutcome where
  status : Nat
  headers : List (String × String)
  written : ByteStream
  handoff : Option ByteStream
  events : List TrackEvent
  pool : SlicePool
deriving DecidableEq

/-- Embedding of the proxy handler body returned by `registerClients`
(per-request logging via `vdbg`/`always` is modelled separately, as it
carries no data flow):

```
reqBody := captureBody(&req.Body, c.maxCapture)
respChan := make(chan []byte, 1)
go trackCoroutine(c, req.URL, reqBody, respChan)
resp, err := http.DefaultClient.Do(req)
if err != nil { http.Error(w, err.Error(), http.StatusBadGateway); return }
for k, vs := range resp.Header { ... w.Header().Add(k, h) ... }
w.WriteHeader(resp.StatusCode)
respBody := streamAndCapture(w, resp.Body, c.maxCapture)
respChan <- respBody; close(respChan)
```

`http.Error` writes the error text followed by a newline. On the error
path the handler returns without ever writing `respChan`, so the
coroutine's handoff stays `none`. On success the slice value sent on the
channel is the capture dereferenced in the post-call pool state (a nil
slice, i.e. `[]`, when capture is disabled). An overall `none` is a Go
panic inside `captureBody`. -/
def handlerRun (c : Cfg) (req : Request) (up : UpstreamResult) (p : SlicePool) :
    Option HandlerOutcome :=
  match captureBody req.body c.maxCapture with
  | none => none
  | some (reqBody, _) =>
      match up with
      | UpstreamResult.failure e =>
          some ⟨502, [], strBytes (e ++ "\n"), none,
                trackCoroutine c req.url reqBody none, p⟩
      | UpstreamResult.success st hs body =>
          let r := streamAndCapture [] body c.maxCapture p
          let capVal : ByteStream :=
            match r.2.1 with
            | none => []
            | some s => readSlice r.2.2 s
          some ⟨st, hs, r.1, some capVal,
                trackCoroutine c req.url reqBody (some capVal), r.2.2⟩

/-- An observable logging action: nothing, a Debug/Info call with its
arguments, or a nil-pointer fault (calling a method on a nil logger). -/
inductive LogAction where
  | noop
  | debug (args : List String)
  | info (args : List String)
  | fault
deriving DecidableEq

/-- Calling `Debug` on the (possibly nil) injected logger: a fault when
the logger is nil. -/
def callDebug (lg : Option Unit) (args : List String) : LogAction :=
  match lg with
  | some _ => LogAction.debug args
  | none => LogAction.fault

/-- Embedding of `func vdbg(c *cfg, v ...)`:
`if c.verbose && logger != nil { logger.Debug(append([]...{tag}, v...)...) }`. -/
def vdbg (lg : Option Unit) (c : Cfg) (args : List String) : LogAction :=
  if c.verbose && lg.isSome then callDebug lg (tag :: args) else LogAction.noop

/-- Embedding of `func always(v ...)`:
`if logger != nil { logger.Debug(append([]...{tag}, v...)...) }`. -/
def always (lg : Option Unit) (args : List String) : LogAction :=
  if lg.isSome then callDebug lg (tag :: args) else LogAction.noop

/-- Spec-side definition (for the refinement claim C6, following the
spec's words): a tagged segment is the content wrapped in an opening
marker and a closing marker, each literally containing the field name. -/
def taggedSegment (name : String) (content : ByteStream) : ByteStream :=
  strBytes ("\x7b$" ++ name ++ "\x7d") ++ content ++ strBytes ("\x7b/" ++ name ++ "\x7d")

/- ───────────── concrete fixtures used by the claim theorems ───────────── -/

/-- A pool holding one free empty scratch buffer. -/
def pool0 : SlicePool := ⟨[[]], [0]⟩

/-- A valid absolute tracking URL string. -/
def trackURLStr : String := "http://track.example/api"

/-- The URL value `parseRequestURI trackURLStr` yields. -/
def urlA : URL := ⟨trackURLStr, ""⟩

/-- The configuration produced from a minimal valid block: documented
defaults (2000 ms timeout in ns, 256 KB capture, verbose off). -/
def defaultCfg : Cfg := ⟨urlA, 2000000000, 262144, false⟩

/-- A minimal valid configuration map: only `tracking_url`. -/
def minimalExtra : List (String × ExtraVal) :=
  [(pluginName, ExtraVal.secCfg [("tracking_url", CVal.vstr trackURLStr)])]

/-- A configuration map whose block lacks `tracking_url`. -/
def missingExtra : List (String × ExtraVal) :=
  [(pluginName, ExtraVal.secCfg [])]

/-- A configuration map with only `tracking_url` set to `s`. -/
def extraURL (s : String) : List (String × ExtraVal) :=
  [(pluginName, ExtraVal.secCfg [("tracking_url", CVal.vstr s)])]

/-- A configuration map with `tracking_url` plus numeric `timeout_ms` and
`max_capture_kb`. -/
def extraTV (t v : ℚ) : List (String × ExtraVal) :=
  [(pluginName, ExtraVal.secCfg
     [("tracking_url", CVal.vstr trackURLStr),
      ("timeout_ms", CVal.vnum t),
      ("max_capture_kb", CVal.vnum v)])]

/-- A configuration map with `tracking_url` plus a numeric `max_capture_kb`. -/
def extraMaxCap (v : ℚ) : List (String × ExtraVal) :=
  [(pluginName, ExtraVal.secCfg
     [("tracking_url", CVal.vstr trackURLStr),
      ("max_capture_kb", CVal.vnum v)])]

/-- A request to `/foo?x=1` with a 1-byte body. -/
def req3 : Request := ⟨⟨"/foo?x=1", "x=1"⟩, some [8]⟩

/-- The run of `streamAndCapture` used by the C2 aliasing theorem. -/
def c2run : ByteStream × Option CaptureSlice × SlicePool :=
  streamAndCapture [] [7] 4 pool0

/-- The request URL `/foo?x=1` as a URL value. -/
def u9 : URL := ⟨"/foo?x=1", "x=1"⟩

/- ───────────── helper lemmas ───────────── -/

/-- Setting an in-range index and reading it back with a default. -/
theorem getD_set_self (l : List ByteStream) (i : Nat) (x : ByteStream)
    (h : i < l.length) : (l.set i x).getD i [] = x := by
  simp [List.getD, List.getElem?_set_self h]

/-- For a nonnegative limit, `captureBody` on a present stream never
panics: it returns the clipped capture and the full replacement stream. -/
theorem captureBody_eq_of_nonneg (b : ByteStream) (max : Int) (h : 0 ≤ max) :
    captureBody (some b) max = some (b.take max.toNat, some b) := by
  simp only [captureBody]
  split_ifs with h1 h2
  · exact absurd h2 (by omega)
  · rfl
  · rw [List.take_of_length_le (by omega)]

/-- For a positive limit and a well-formed pool, `streamAndCapture`
forwards exactly the clipped bytes, and the returned capture slice reads
back as those clipped bytes in the post-state pool. -/
theorem streamAndCapture_pos (dst src : ByteStream) (max : Int) (p : SlicePool)
    (hm : 0 < max) (hwf : ∀ i ∈ p.free, i < p.heap.length) :
    ∃ s p', streamAndCapture dst src max p =
        (dst ++ src.take max.toNat, some s, p') ∧
      readSlice p' s = src.take max.toNat := by
  unfold streamAndCapture
  rw [if_neg (by omega)]
  cases hf : p.free with
  | nil =>
      refine ⟨⟨p.heap.length, (src.take max.toNat).length⟩,
        ⟨(p.heap ++ [[]]).set p.heap.length (src.take max.toNat), [p.heap.length]⟩,
        ?_, ?_⟩
      · simp [SlicePool.get, hf, SlicePool.write, SlicePool.put]
      · simp only [readSlice]
        rw [getD_set_self _ _ _ (by simp), List.take_length]
  | cons i rest =>
      have hi : i < p.heap.length := hwf i (by rw [hf]; exact List.mem_cons_self i rest)
      refine ⟨⟨i, (src.take max.toNat).length⟩,
        ⟨p.heap.set i (src.take max.toNat), i :: rest⟩, ?_, ?_⟩
      · simp [SlicePool.get, hf, SlicePool.write, SlicePool.put]
      · simp only [readSlice]
        rw [getD_set_self _ _ _ hi, List.take_length]

/- ───────────── claim theorems ───────────── -/

/-- C1 (code_bug evidence). The spec claims the destination receives the
complete source stream even when it is longer than `maxCapture`; in the
code `io.Copy` reads through the `LimitedReader`, so on the failing input
`src = [1, 2]`, `maxCapture = 1`, the destination receives only `[1]`,
not the complete stream `[1, 2]`. -/
theorem c1_destination_truncated_at_capture_limit :
    (streamAndCapture [] [1, 2] 1 pool0).1 = [1] ∧
    ([1] : ByteStream) ≠ [1, 2] := by decide

/-- C2 (code_bug evidence). The capture slice returned by
`streamAndCapture` still references the pooled backing buffer even though
`slicePool.Put` has already run: the returned slice is `⟨buffer 0, 1⟩`,
buffer 0 is already back on the pool's free list, the slice currently
reads `[7]`, and as soon as the next `Get` hands buffer 0 to another
request and it writes `[42]`, the same capture slice reads `[42]` — the
captured bytes were never value-copied out before release. -/
theorem c2_capture_aliases_released_buffer :
    c2run.2.1 = some ⟨0, 1⟩ ∧
    0 ∈ c2run.2.2.free ∧
    readSlice c2run.2.2 ⟨0, 1⟩ = [7] ∧
    c2run.2.2.get.1 = 0 ∧
    readSlice (c2run.2.2.get.2.write c2run.2.2.get.1 [42]) ⟨0, 1⟩ = [42] ∧
    ([42] : ByteStream) ≠ [7] := by decide

/-- C4 (confirmed). For every present read-once stream and nonnegative
limit, `captureBody` fully drains it and replaces it with a stream
exposing the entire original content (not just the captured prefix); a
nil/absent stream yields an empty capture and an absent (no-op) stream,
with no error in either case. -/
theorem c4_full_body_restored (b : ByteStream) (max : Int) (h : 0 ≤ max) :
    (captureBody (some b) max).map Prod.snd = some (some b) ∧
    captureBody none max = some ([], none) := by
  rw [captureBody_eq_of_nonneg b max h]
  exact ⟨rfl, rfl⟩

/-- Witness for C4 at `b = [1, 2, 3]`, `max = 1`. -/
theorem c4_full_body_restored_witness :
    (0 : Int) ≤ 1 ∧
    ((captureBody (some [1, 2, 3]) 1).map Prod.snd = some (some [1, 2, 3]) ∧
     captureBody none 1 = some ([], none)) :=
  ⟨by decide, c4_full_body_restored [1, 2, 3] 1 (by decide)⟩

/-- C5 (confirmed). For every body and every capture limit `max > 0`, the
captured byte sequence — the request side via `captureBody` and the
response side via `streamAndCapture` (read back through the pool) —
equals the first `min(length, max)` bytes of the body (`List.take`
clips): shorter bodies are captured in full, longer ones are silently
truncated to exactly the `max`-byte prefix, and no error is raised. -/
theorem c5_captured_is_clipped_first_bytes (b dst src : ByteStream) (max : Int)
    (p : SlicePool) (hm : 0 < max) (hwf : ∀ i ∈ p.free, i < p.heap.length) :
    (captureBody (some b) max).map Prod.fst = some (b.take max.toNat) ∧
    ∃ s p', (streamAndCapture dst src max p).2 = (some s, p') ∧
      readSlice p' s = src.take max.toNat := by
  constructor
  · rw [captureBody_eq_of_nonneg b max (le_of_lt hm)]
    rfl
  · obtain ⟨s, p', heq, hread⟩ := streamAndCapture_pos dst src max p hm hwf
    exact ⟨s, p', by rw [heq], hread⟩

/-- Witness for C5 at `b = [1, 2]`, `src = [3, 4]`, `max = 1`,
`p = pool0`. -/
theorem c5_captured_is_clipped_first_bytes_witness :
    (0 : Int) < 1 ∧ (∀ i ∈ pool0.free, i < pool0.heap.length) ∧
    ((captureBody (some [1, 2]) 1).map Prod.fst = some (([1, 2] : ByteStream).take (1 : Int).toNat) ∧
     ∃ s p', (streamAndCapture [] [3, 4] 1 pool0).2 = (some s, p') ∧
       readSlice p' s = ([3, 4] : ByteStream).take (1 : Int).toNat) :=
  ⟨by decide, by decide,
   c5_captured_is_clipped_first_bytes [1, 2] [] [3, 4] 1 pool0 (by decide) (by decide)⟩

/-- C3 (counterexample). The claim says a configured `max_capture_kb ≤ 0`
disables capture with empty payload body segments; in the code the
registration with `max_capture_kb = -1` keeps the 256 KB default
(`maxCapture = 262144`), capture stays enabled, and the handoff carries
the nonempty captured response `[9]` rather than an empty capture. -/
theorem c3_nonpos_maxcapture_still_captures :
    registerClients (some ()) (extraMaxCap (-1)) = RegResult.ok defaultCfg ∧
    defaultCfg.maxCapture = 262144 ∧
    (handlerRun defaultCfg req3 (UpstreamResult.success 200 [] [9]) pool0).map
        HandlerOutcome.handoff = some (some [9]) ∧
    some (some ([9] : ByteStream)) ≠ some (some ([] : ByteStream)) := by
  refine ⟨rfl, rfl, rfl, by decide⟩

/-- C3 (amended, confirmed). A configured `max_capture_kb ≤ 0` does not
disable capture: the value is ignored in favor of the 256 KB default, so
capture stays enabled for that registration. Capture is disabled — nil
capture, with the forwarding to the destination still a complete
pass-through copy — exactly when `streamAndCapture` is invoked with an
(internal) limit `max ≤ 0`; registration reaches that branch not through
`max_capture_kb ≤ 0` but through a tiny positive fractional value: e.g.
`max_capture_kb = 1/2048` passes the `v > 0` guard and
`int(v * 1024) = 0`. -/
theorem c3_nonpos_maxcapture_ignored (v : ℚ) (hv : v ≤ 0) :
    registerClients (some ()) (extraMaxCap v) = RegResult.ok defaultCfg ∧
    registerClients (some ()) (extraMaxCap (1 / 2048)) =
      RegResult.ok ⟨urlA, 2000000000, 0, false⟩ ∧
    ∀ (dst src : ByteStream) (max : Int) (p : SlicePool), max ≤ 0 →
      streamAndCapture dst src max p = (dst ++ src, none, p) := by
  refine ⟨?_, ?_, ?_⟩
  · have h1 : registerClients (some ()) (extraMaxCap v) =
        RegResult.ok ⟨urlA, 2000000000,
          if 0 < v then ratTrunc (v * 1024) else 262144, false⟩ := rfl
    rw [if_neg (not_lt.mpr hv)] at h1
    exact h1
  · have h1 : registerClients (some ()) (extraMaxCap (1 / 2048)) =
        RegResult.ok ⟨urlA, 2000000000,
          if 0 < (1 / 2048 : ℚ) then ratTrunc ((1 / 2048) * 1024) else 262144,
          false⟩ := rfl
    rw [if_pos (show (0 : ℚ) < 1 / 2048 by norm_num)] at h1
    rw [show ((1 / 2048 : ℚ) * 1024) = mkRat 1 2 by
          rw [Rat.mkRat_eq_divInt]; norm_num [Rat.divInt_eq_div],
        show ratTrunc (mkRat 1 2) = 0 from rfl] at h1
    exact h1
  · intro dst src max p hm
    unfold streamAndCapture
    rw [if_pos hm]

/-- Witness for C3's amended claim at `v = -1`, `max = 0`. -/
theorem c3_nonpos_maxcapture_ignored_witness :
    ((-1 : ℚ) ≤ 0 ∧
     registerClients (some ()) (extraMaxCap (-1)) = RegResult.ok defaultCfg) ∧
    registerClients (some ()) (extraMaxCap (1 / 2048)) =
      RegResult.ok ⟨urlA, 2000000000, 0, false⟩ ∧
    ((0 : Int) ≤ 0 ∧
     streamAndCapture [5, 6] [7] 0 pool0 = ([5, 6, 7], none, pool0)) :=
  ⟨⟨by norm_num, (c3_nonpos_maxcapture_ignored (-1) (by norm_num)).1⟩,
   (c3_nonpos_maxcapture_ignored (-1) (by norm_num)).2.1,
   ⟨le_refl 0,
    (c3_nonpos_maxcapture_ignored (-1) (by norm_num)).2.2 [5, 6] [7] 0 pool0 (le_refl 0)⟩⟩

/-- C7 (counterexample). The claim says a missing `tracking_url` fails
with a configuration error; in the code the block
`[(pluginName, secCfg [])]` makes `sec["tracking_url"].(string)` a failed
type assertion — a runtime panic, not an error return. -/
theorem c7_missing_url_panics :
    registerClients (some ()) missingExtra = RegResult.panicked ∧
    ¬ ∃ m, registerClients (some ()) missingExtra = RegResult.err m := by
  refine ⟨rfl, ?_⟩
  rintro ⟨m, hm⟩
  rw [show registerClients (some ()) missingExtra = RegResult.panicked from rfl] at hm
  exact RegResult.noConfusion hm

/-- C7 (amended, confirmed). A malformed `tracking_url` string fails with
a configuration error (so the handler is not installed); a missing or
non-string `tracking_url` instead causes a runtime panic. A valid minimal
configuration (`tracking_url` only) uses the documented defaults — 2000 ms
delivery timeout (2000000000 ns), 256 KB capture (262144 bytes), verbose
off — and `timeout_ms`/`max_capture_kb` values ≤ 0 are ignored in favor
of those defaults. -/
theorem c7_registration_defaults (s : String) (t v : ℚ) :
    (parseRequestURI s = none →
      registerClients (some ()) (extraURL s) = RegResult.err invalidURLMsg) ∧
    registerClients (some ()) minimalExtra = RegResult.ok defaultCfg ∧
    (t ≤ 0 → v ≤ 0 →
      registerClients (some ()) (extraTV t v) = RegResult.ok defaultCfg) := by
  refine ⟨?_, rfl, ?_⟩
  · intro hs
    have h1 : registerClients (some ()) (extraURL s) =
        (match parseRequestURI s with
         | none => RegResult.err invalidURLMsg
         | some u => RegResult.ok ⟨u, 2000000000, 262144, false⟩) := rfl
    rw [hs] at h1
    exact h1
  · intro ht hv
    have h1 : registerClients (some ()) (extraTV t v) =
        RegResult.ok ⟨urlA,
          if 0 < t then ratTrunc t * msNS else 2000000000,
          if 0 < v then ratTrunc (v * 1024) else 262144, false⟩ := rfl
    rw [if_neg (not_lt.mpr ht), if_neg (not_lt.mpr hv)] at h1
    exact h1

/-- Witness for C7's amended claim at the malformed URL `""` and
`timeout_ms = 0`, `max_capture_kb = -1`. -/
theorem c7_registration_defaults_witness :
    (parseRequestURI "" = none ∧
     registerClients (some ()) (extraURL "") = RegResult.err invalidURLMsg) ∧
    ((0 : ℚ) ≤ 0 ∧ (-1 : ℚ) ≤ 0 ∧
     registerClients (some ()) (extraTV 0 (-1)) = RegResult.ok defaultCfg) :=
  ⟨⟨rfl, (c7_registration_defaults "" 0 (-1)).1 rfl⟩,
   ⟨le_refl 0, by norm_num,
    (c7_registration_defaults "" 0 (-1)).2.2 (le_refl 0) (by norm_num)⟩⟩

/-- Helper for C8: for a nonnegative limit, `captureBody` never panics. -/
theorem captureBody_isSome (rc : Option ByteStream) (max : Int) (h : 0 ≤ max) :
    ∃ rb ns, captureBody rc max = some (rb, ns) := by
  cases rc with
  | none => exact ⟨[], none, rfl⟩
  | some b => exact ⟨_, _, captureBody_eq_of_nonneg b max h⟩

/-- Helper for C6: the merged literal chunks the source writes split into
marker / comma / marker byte sequences. -/
theorem markerSplitRespReq :
    strBytes "\x7b/responseBody\x7d,\x7b$requestBody\x7d" =
      strBytes ("\x7b/" ++ "responseBody" ++ "\x7d") ++ strBytes "," ++
      strBytes ("\x7b$" ++ "requestBody" ++ "\x7d") := by decide

/-- Helper for C6: chunk between request body and request query. -/
theorem markerSplitReqQuery :
    strBytes "\x7b/requestBody\x7d,\x7b$requestQuery\x7d" =
      strBytes ("\x7b/" ++ "requestBody" ++ "\x7d") ++ strBytes "," ++
      strBytes ("\x7b$" ++ "requestQuery" ++ "\x7d") := by decide

/-- Helper for C6: chunk between request query and request URL. -/
theorem markerSplitQueryUrl :
    strBytes "\x7b/requestQuery\x7d,\x7b$requestUrl\x7d" =
      strBytes ("\x7b/" ++ "requestQuery" ++ "\x7d") ++ strBytes "," ++
      strBytes ("\x7b$" ++ "requestUrl" ++ "\x7d") := by decide

/-- Helper for C6: the opening response-body marker. -/
theorem markerOpenResp :
    strBytes "\x7b$responseBody\x7d" = strBytes ("\x7b$" ++ "responseBody" ++ "\x7d") := by
  decide

/-- Helper for C6: the closing request-URL marker. -/
theorem markerCloseUrl :
    strBytes "\x7b/requestUrl\x7d" = strBytes ("\x7b/" ++ "requestUrl" ++ "\x7d") := by
  decide

/-- C6 (confirmed). The encoded tracking payload is exactly the
concatenation of four tagged segments in the fixed order response body,
request body, raw query, full URL — each wrapped in opening/closing
markers literally containing the field name (see `taggedSegment`), with a
comma between consecutive segments and the captured bytes inserted
verbatim with no escaping — and the delivery request the coroutine issues
declares content type `text/plain`. -/
theorem c6_payload_fixed_tagged_format (respBody reqBody : ByteStream)
    (rawQuery fullURL : String) :
    buildPayload respBody reqBody rawQuery fullURL =
      taggedSegment "responseBody" respBody ++ strBytes "," ++
      taggedSegment "requestBody" reqBody ++ strBytes "," ++
      taggedSegment "requestQuery" (strBytes rawQuery) ++ strBytes "," ++
      taggedSegment "requestUrl" (strBytes fullURL) ∧
    ∀ (c : Cfg) (u : URL) (b : ByteStream),
      ∃ tp, TrackEvent.post tp ∈ trackCoroutine c u reqBody (some b) ∧
        tp.contentType = "text/plain" ∧
        tp.payload = buildPayload b reqBody u.rawQuery u.full := by
  constructor
  · simp only [buildPayload, taggedSegment]
    rw [markerOpenResp, markerSplitRespReq, markerSplitReqQuery, markerSplitQueryUrl,
      markerCloseUrl]
    simp [List.append_assoc]
  · intro c u b
    exact ⟨⟨c.url.full, "text/plain", buildPayload b reqBody u.rawQuery u.full⟩,
      by simp [trackCoroutine], rfl, rfl⟩

/-- C8 (confirmed). For every request whose upstream call fails, the
handler responds with status 502 whose body is the raw error text
(followed by the newline `http.Error` appends), the handoff channel is
never signalled, and the delivery coroutine performs no step — in
particular it never issues a tracking POST with response data. -/
theorem c8_upstream_failure_no_tracking (c : Cfg) (req : Request) (e : String)
    (p : SlicePool) (h : 0 ≤ c.maxCapture) :
    ∃ o, handlerRun c req (UpstreamResult.failure e) p = some o ∧
      o.status = 502 ∧ o.written = strBytes (e ++ "\n") ∧
      o.handoff = none ∧ o.events = [] := by
  obtain ⟨rb, ns, hcb⟩ := captureBody_isSome req.body c.maxCapture h
  refine ⟨⟨502, [], strBytes (e ++ "\n"), none, [], p⟩, ?_, rfl, rfl, rfl, rfl⟩
  simp [handlerRun, hcb, trackCoroutine]

/-- Witness for C8 at the default configuration, `req3`, error text
`"boom"` and `pool0`. -/
theorem c8_upstream_failure_no_tracking_witness :
    (0 : Int) ≤ defaultCfg.maxCapture ∧
    ∃ o, handlerRun defaultCfg req3 (UpstreamResult.failure "boom") pool0 = some o ∧
      o.status = 502 ∧ o.written = strBytes ("boom" ++ "\n") ∧
      o.handoff = none ∧ o.events = [] :=
  ⟨by decide, c8_upstream_failure_no_tracking defaultCfg req3 "boom" pool0 (by decide)⟩

/-- C9 (confirmed). In every execution of the delivery coroutine, an
encoding step occurs only strictly after the handoff receive step: if the
event at position `i` is `encode`, some position `j < i` holds the
`recv b` of the one-shot handoff (so the handoff channel was signalled),
and every POST the coroutine issues carries the payload built from
exactly those received captured response bytes — which appear inside the
payload. -/
theorem c9_encode_only_after_handoff (c : Cfg) (u : URL) (reqBody : ByteStream)
    (handoff : Option ByteStream) (i : Nat)
    (hi : (trackCoroutine c u reqBody handoff)[i]? = some TrackEvent.encode) :
    ∃ (j : Nat) (b : ByteStream), j < i ∧
      (trackCoroutine c u reqBody handoff)[j]? = some (TrackEvent.recv b) ∧
      handoff = some b ∧
      ∀ (k : Nat) (tp : TrackingPost),
        (trackCoroutine c u reqBody handoff)[k]? = some (TrackEvent.post tp) →
        tp.payload = buildPayload b reqBody u.rawQuery u.full ∧
        ∃ l1 l2, tp.payload = l1 ++ b ++ l2 := by
  cases handoff with
  | none => simp [trackCoroutine] at hi
  | some b =>
      cases i with
      | zero => simp [trackCoroutine] at hi
      | succ n =>
          refine ⟨0, b, Nat.succ_pos n, rfl, rfl, ?_⟩
          intro k tp hk
          match k with
          | 0 => simp [trackCoroutine] at hk
          | 1 => simp [trackCoroutine] at hk
          | 2 =>
              have htp : tp = ⟨c.url.full, "text/plain",
                  buildPayload b reqBody u.rawQuery u.full⟩ := by
                simp [trackCoroutine] at hk
                exact hk.symm
              subst htp
              exact ⟨rfl, strBytes "\x7b$responseBody\x7d",
                strBytes "\x7b/responseBody\x7d,\x7b$requestBody\x7d" ++ reqBody ++
                strBytes "\x7b/requestBody\x7d,\x7b$requestQuery\x7d" ++ strBytes u.rawQuery ++
                strBytes "\x7b/requestQuery\x7d,\x7b$requestUrl\x7d" ++ strBytes u.full ++
                strBytes "\x7b/requestUrl\x7d",
                by simp [buildPayload, List.append_assoc]⟩
          | n + 3 => simp [trackCoroutine] at hk

/-- Witness for C9 at a concrete coroutine run with handoff `[5]`. -/
theorem c9_encode_only_after_handoff_witness :
    (trackCoroutine defaultCfg u9 [3] (some [5]))[1]? = some TrackEvent.encode ∧
    ∃ (j : Nat) (b : ByteStream), j < 1 ∧
      (trackCoroutine defaultCfg u9 [3] (some [5]))[j]? = some (TrackEvent.recv b) ∧
      (some [5] : Option ByteStream) = some b ∧
      ∀ (k : Nat) (tp : TrackingPost),
        (trackCoroutine defaultCfg u9 [3] (some [5]))[k]? = some (TrackEvent.post tp) →
        tp.payload = buildPayload b [3] u9.rawQuery u9.full ∧
        ∃ l1 l2, tp.payload = l1 ++ b ++ l2 :=
  ⟨rfl, c9_encode_only_after_handoff defaultCfg u9 [3] (some [5]) 1 rfl⟩

/-- C10 (confirmed). The request-path log helpers `vdbg` and `always`
first check that a logger has been injected and are silent no-ops
otherwise, so they never fault on a nil logger; registration, by
contrast, calls the logger's `Info` unconditionally, so registering with
a valid configuration but no injected logger panics. -/
theorem c10_request_path_logging_nil_safe :
    (∀ (lg : Option Unit) (c : Cfg) (args : List String),
      vdbg lg c args ≠ LogAction.fault) ∧
    (∀ (lg : Option Unit) (args : List String),
      always lg args ≠ LogAction.fault) ∧
    registerClients none minimalExtra = RegResult.panicked := by
  refine ⟨?_, ?_, rfl⟩
  · intro lg c args
    cases lg with
    | none => simp [vdbg]
    | some u => cases hv : c.verbose <;> simp [vdbg, hv, callDebug]
  · intro lg args
    cases lg with
    | none => simp [always]
    | some u => simp [always, callDebug]

end KrakendTrace
